import Mathlib

/-!
Shallow embedding of `src/app/interface.py` and `src/app/settings.py` of the
vector-search-showcase repository.

The repository is a dispatch layer over four vector-database SDKs
(Milvus, Pinecone, MongoDB, QDrant).  The three functions embedded here are
`get_connection`, `index_documents` and `search_documents` from
`src/app/interface.py`.

Modelling decisions (all external collaborators are opaque in the source):
* Backend SDK calls are represented by an oracle `BackendBehavior` whose
  methods return `Except Err _`: a call either succeeds with a
  backend-chosen value or raises an exception, which the Python code never
  catches.  Every issued call is also recorded in an `Event` trace, so the
  side effects of a run are observable.
* `st.session_state.connections` is the session-scoped cache; a Python dict
  that may not exist yet is observationally the empty dict for this code, so
  the state simply carries the association list.  Client objects are opaque
  in Python and compared by identity; a `Connection` carries its backend kind
  and a `handleId` minted from a counter at construction, so Lean equality of
  `Connection` coincides with Python object identity.
* `TextEmbedding().embed(texts)` is the embedding collaborator: per the
  source's usage it returns one fixed-dimensionality vector per input text in
  input order, so it is modelled as `texts.map emb` for an opaque
  `emb : String → Vec`.  Vector components and scores are opaque payload data
  carried through untouched; they are represented by `Int`.
* `str(ObjectId())` and `str(uuid.uuid4())` mint fresh identifiers; freshness
  is modelled by a counter threaded through `index_documents`
  (collision-freeness of the random generators is the collaborator contract).
-/

namespace VectorShowcase

/-- Opaque embedding-vector payload (components are never inspected). -/
abbrev Vec := List Int

/-- Opaque backend-assigned relevance score / distance payload. -/
abbrev Score := Int

/-- An uncaught backend exception. -/
abbrev Err := String

/-! ### Settings (`src/app/settings.py`) -/

structure QDrantConfig where
  collection_name : String
deriving Repr, DecidableEq

structure MilvusConfig where
  collection_name : String
deriving Repr, DecidableEq

structure MongoDBConfig where
  uri : String
  db_name : String
  collection_name : String
deriving Repr, DecidableEq

structure PineconeConfig where
  api_key : String
  index_name : String
deriving Repr, DecidableEq

structure Settings where
  milvus_database_config : MilvusConfig
  pinecone_database_config : PineconeConfig
  mongodb_database_config : MongoDBConfig
  qdrant_database_config : QDrantConfig
deriving Repr, DecidableEq

/-! ### Connections and session state -/

/-- The four client types of `CONNECTION_TYPES` in `interface.py`. -/
inductive ConnectionKind
  | milvusClient
  | pinecone
  | mongoClient
  | qdrantClient
deriving Repr, DecidableEq

/-- An opaque client handle; `handleId` is minted at construction so that
equality of `Connection` values models Python object identity. -/
structure Connection where
  kind : ConnectionKind
  handleId : Nat
deriving Repr, DecidableEq

/-- The session-scoped state: the `st.session_state.connections` cache plus
the counter minting handle identities. -/
structure SessionState where
  connections : List (String × Connection)
  nextHandleId : Nat
deriving Repr, DecidableEq

/-! ### Record shapes written by `index_documents` -/

/-- One element of `data` in the Milvus branch of `index_documents`. -/
structure MilvusRecord where
  id : Nat
  vector : Vec
  text : String
  title : String
deriving Repr, DecidableEq

/-- One record of the Pinecone `upsert_records` payload; `rid` models the
`_id` field, a fresh `str(ObjectId())`. -/
structure PineconeRecord where
  rid : Nat
  title : String
  text : String
deriving Repr, DecidableEq

/-- One document of the MongoDB `insert_many` payload. -/
structure MongoRecord where
  text : String
  title : String
  embedding : Vec
deriving Repr, DecidableEq

/-- The `$vectorSearch` stage of the MongoDB aggregation pipeline built by
`search_documents` (the `$project` stage is fixed and carries no data). -/
structure MongoVectorSearchStage where
  index : String
  path : String
  queryVector : Vec
  numCandidates : Nat
  limit : Nat
deriving Repr, DecidableEq

/-! ### Backend response shapes consumed by `search_documents` -/

/-- A Milvus hit: `hit["entity"]["title"]`, `hit["entity"]["text"]`,
`hit["distance"]`. -/
structure MilvusHit where
  title : String
  text : String
  distance : Score
deriving Repr, DecidableEq

/-- A Pinecone hit: `hit["fields"]["title"]`, `hit["fields"]["text"]`,
`hit["_score"]`. -/
structure PineconeHit where
  title : String
  text : String
  score : Score
deriving Repr, DecidableEq

/-- A document produced by the MongoDB aggregation. -/
structure MongoResultDoc where
  title : String
  text : String
  score : Score
deriving Repr, DecidableEq

/-- A QDrant hit: `hit.metadata["title"]`, `hit.document`, `hit.score`. -/
structure QdrantHit where
  title : String
  document : String
  score : Score
deriving Repr, DecidableEq

/-! ### Backend calls: trace events and outcome oracle -/

/-- Every backend SDK call the adapter can issue, with its payload.
The `metadata` argument of `qdrantAdd` is the list of titles, one
`{title: ...}` dict per document in the source. -/
inductive Event
  | milvusClientNew (uri : String)
  | milvusCreateCollection (collection_name : String) (dimension : Nat)
  | pineconeNew (api_key : String)
  | pineconeHasIndex (name : String)
  | pineconeCreateIndexForModel (name : String)
  | mongoClientNew (uri : String)
  | qdrantClientNew (location : String)
  | milvusInsert (collection_name : String) (data : List MilvusRecord)
  | pineconeUpsertRecords (ns : String) (records : List PineconeRecord)
  | mongoInsertMany (db : String) (coll : String) (docs : List MongoRecord)
  | qdrantAdd (collection_name : String) (documents : List String)
      (metadata : List String) (ids : List Nat)
  | milvusSearch (collection_name : String) (data : List Vec) (limit : Nat)
  | pineconeSearchQ (ns : String) (text : String) (top_k : Nat)
  | mongoAggregate (db : String) (coll : String) (stage : MongoVectorSearchStage)
  | qdrantQuery (collection_name : String) (query_text : String) (limit : Nat)
deriving Repr, DecidableEq

/-- The outcome each backend call produces: success with a backend-chosen
value, or an uncaught exception.  One method per call shape used by
`interface.py`. -/
structure BackendBehavior where
  milvusClientNew : String → Except Err Unit
  milvusCreateCollection : String → Nat → Except Err Unit
  pineconeNew : String → Except Err Unit
  pineconeHasIndex : String → Except Err Bool
  pineconeCreateIndexForModel : String → Except Err Unit
  mongoClientNew : String → Except Err Unit
  qdrantClientNew : String → Except Err Unit
  milvusInsert : String → List MilvusRecord → Except Err Unit
  pineconeUpsertRecords : String → List PineconeRecord → Except Err Unit
  mongoInsertMany : String → String → List MongoRecord → Except Err Unit
  qdrantAdd : String → List String → List String → List Nat → Except Err Unit
  milvusSearch : String → List Vec → Nat → Except Err (List (List MilvusHit))
  pineconeSearchQ : String → String → Nat → Except Err (List PineconeHit)
  mongoAggregate : String → String → MongoVectorSearchStage →
      Except Err (List MongoResultDoc)
  qdrantQuery : String → String → Nat → Except Err (List QdrantHit)

/-! ### `get_connection` -/

/-- Result of a `get_connection` call: the returned value (or uncaught
exception), the session state after the call, and the backend calls issued. -/
structure ConnResult where
  result : Except Err (Option Connection)
  state : SessionState
  trace : List Event
deriving Repr

/-- Embedding of `get_connection` (`interface.py` lines 31-72).
The initial `if "connections" not in st.session_state` guard only defaults a
missing dict to the empty dict, which `SessionState.connections` already
represents.  The final implicit `return None` of Python is the fall-through
arm.  A failed client construction mints no handle; a failure after
construction leaves the minted handle uncached. -/
def get_connection (S : Settings) (B : BackendBehavior) (database_name : String)
    (σ : SessionState) : ConnResult :=
  let connections := σ.connections
  match connections.lookup database_name with
  | some c => ⟨.ok (some c), σ, []⟩
  | none =>
    if database_name = "Milvus" then
      match B.milvusClientNew "milvus.db" with
      | .error e => ⟨.error e, σ, [.milvusClientNew "milvus.db"]⟩
      | .ok _ =>
        let client : Connection := ⟨.milvusClient, σ.nextHandleId⟩
        let tr : List Event := [.milvusClientNew "milvus.db",
          .milvusCreateCollection S.milvus_database_config.collection_name 384]
        match B.milvusCreateCollection S.milvus_database_config.collection_name 384 with
        | .error e => ⟨.error e, ⟨connections, σ.nextHandleId + 1⟩, tr⟩
        | .ok _ =>
          ⟨.ok (some client), ⟨(database_name, client) :: connections, σ.nextHandleId + 1⟩, tr⟩
    else if database_name = "Pinecone" then
      match B.pineconeNew S.pinecone_database_config.api_key with
      | .error e => ⟨.error e, σ, [.pineconeNew S.pinecone_database_config.api_key]⟩
      | .ok _ =>
        let client : Connection := ⟨.pinecone, σ.nextHandleId⟩
        match B.pineconeHasIndex S.pinecone_database_config.index_name with
        | .error e => ⟨.error e, ⟨connections, σ.nextHandleId + 1⟩,
            [.pineconeNew S.pinecone_database_config.api_key,
             .pineconeHasIndex S.pinecone_database_config.index_name]⟩
        | .ok true =>
          ⟨.ok (some client), ⟨(database_name, client) :: connections, σ.nextHandleId + 1⟩,
            [.pineconeNew S.pinecone_database_config.api_key,
             .pineconeHasIndex S.pinecone_database_config.index_name]⟩
        | .ok false =>
          let tr : List Event := [.pineconeNew S.pinecone_database_config.api_key,
            .pineconeHasIndex S.pinecone_database_config.index_name,
            .pineconeCreateIndexForModel S.pinecone_database_config.index_name]
          match B.pineconeCreateIndexForModel S.pinecone_database_config.index_name with
          | .error e => ⟨.error e, ⟨connections, σ.nextHandleId + 1⟩, tr⟩
          | .ok _ =>
            ⟨.ok (some client), ⟨(database_name, client) :: connections, σ.nextHandleId + 1⟩, tr⟩
    else if database_name = "MongoDB" then
      match B.mongoClientNew S.mongodb_database_config.uri with
      | .error e => ⟨.error e, σ, [.mongoClientNew S.mongodb_database_config.uri]⟩
      | .ok _ =>
        let client : Connection := ⟨.mongoClient, σ.nextHandleId⟩
        ⟨.ok (some client), ⟨(database_name, client) :: connections, σ.nextHandleId + 1⟩,
          [.mongoClientNew S.mongodb_database_config.uri]⟩
    else if database_name = "QDrant" then
      match B.qdrantClientNew ":memory:" with
      | .error e => ⟨.error e, σ, [.qdrantClientNew ":memory:"]⟩
      | .ok _ =>
        let client : Connection := ⟨.qdrantClient, σ.nextHandleId⟩
        ⟨.ok (some client), ⟨(database_name, client) :: connections, σ.nextHandleId + 1⟩,
          [.qdrantClientNew ":memory:"]⟩
    else
      ⟨.ok none, σ, []⟩

/-! ### `index_documents` -/

/-- Result of an `index_documents` call: the outcome (Python returns `None`,
so success carries `Unit`), the backend calls issued, and the fresh-identifier
counter after the call. -/
structure IndexResult where
  result : Except Err Unit
  trace : List Event
  nextFreshId : Nat
deriving Repr

/-- Embedding of `index_documents` (`interface.py` lines 76-122).
`emb` is the embedding collaborator; `freshId` is the fresh-identifier
counter modelling `str(ObjectId())` / `str(uuid.uuid4())`.  The Milvus branch
builds `data` by indexing `vectors[i]` and `documents[i]` over
`range(len(vectors))`; since the embedding collaborator returns one vector per
text, every index is in range, so `getD` defaults are never taken. -/
def index_documents (S : Settings) (emb : String → Vec) (B : BackendBehavior)
    (freshId : Nat) (connection : Connection)
    (documents : List (String × String)) : IndexResult :=
  match connection.kind with
  | .milvusClient =>
    let vectors := (documents.map (fun doc => doc.2)).map emb
    let data : List MilvusRecord := (List.range vectors.length).map (fun i =>
      ⟨i, vectors.getD i [], (documents.getD i ("", "")).2, (documents.getD i ("", "")).1⟩)
    ⟨B.milvusInsert S.milvus_database_config.collection_name data,
     [.milvusInsert S.milvus_database_config.collection_name data], freshId⟩
  | .pinecone =>
    let records : List PineconeRecord := documents.enum.map (fun p =>
      ⟨freshId + p.1, p.2.1, p.2.2⟩)
    ⟨B.pineconeUpsertRecords "namespace" records,
     [.pineconeUpsertRecords "namespace" records], freshId + documents.length⟩
  | .mongoClient =>
    let embeddings := (documents.map (fun doc => doc.2)).map emb
    let docs : List MongoRecord := (embeddings.zip documents).map (fun p =>
      ⟨p.2.2, p.2.1, p.1⟩)
    ⟨B.mongoInsertMany S.mongodb_database_config.db_name
       S.mongodb_database_config.collection_name docs,
     [.mongoInsertMany S.mongodb_database_config.db_name
       S.mongodb_database_config.collection_name docs], freshId⟩
  | .qdrantClient =>
    let docs := documents.map (fun doc => doc.2)
    let metadata := documents.map (fun doc => doc.1)
    let ids := (List.range documents.length).map (fun i => freshId + i)
    ⟨B.qdrantAdd S.qdrant_database_config.collection_name docs metadata ids,
     [.qdrantAdd S.qdrant_database_config.collection_name docs metadata ids],
     freshId + documents.length⟩

/-! ### `search_documents` -/

/-- Result of a `search_documents` call: the normalized `(title, text, score)`
list (or uncaught exception) and the backend calls issued. -/
structure SearchOutcome where
  result : Except Err (List (String × String × Score))
  trace : List Event
deriving Repr

/-- Embedding of `search_documents` (`interface.py` lines 126-194).
`top_k` defaults to 3 at the Python call site; it is an explicit argument
here.  The MongoDB branch queries with the fixed pipeline stage
`$vectorSearch index="default" path="embedding" numCandidates=100`. -/
def search_documents (S : Settings) (emb : String → Vec) (B : BackendBehavior)
    (connection : Connection) (query : String) (top_k : Nat) : SearchOutcome :=
  match connection.kind with
  | .milvusClient =>
    let query_vectors := [query].map emb
    let ev : Event := .milvusSearch S.milvus_database_config.collection_name
      query_vectors top_k
    match B.milvusSearch S.milvus_database_config.collection_name query_vectors top_k with
    | .error e => ⟨.error e, [ev]⟩
    | .ok res =>
      ⟨.ok ((res.map (fun hits => hits.map (fun hit =>
          (hit.title, hit.text, hit.distance)))).flatten), [ev]⟩
  | .pinecone =>
    let ev : Event := .pineconeSearchQ "namespace" query top_k
    match B.pineconeSearchQ "namespace" query top_k with
    | .error e => ⟨.error e, [ev]⟩
    | .ok hits =>
      ⟨.ok (hits.map (fun hit => (hit.title, hit.text, hit.score))), [ev]⟩
  | .mongoClient =>
    let query_vectors := [query].map emb
    let stage : MongoVectorSearchStage :=
      ⟨"default", "embedding", query_vectors.getD 0 [], 100, top_k⟩
    let ev : Event := .mongoAggregate S.mongodb_database_config.db_name
      S.mongodb_database_config.collection_name stage
    match B.mongoAggregate S.mongodb_database_config.db_name
        S.mongodb_database_config.collection_name stage with
    | .error e => ⟨.error e, [ev]⟩
    | .ok docs =>
      ⟨.ok (docs.map (fun doc => (doc.title, doc.text, doc.score))), [ev]⟩
  | .qdrantClient =>
    let ev : Event := .qdrantQuery S.qdrant_database_config.collection_name query top_k
    match B.qdrantQuery S.qdrant_database_config.collection_name query top_k with
    | .error e => ⟨.error e, [ev]⟩
    | .ok res =>
      ⟨.ok (res.map (fun hit => (hit.title, hit.document, hit.score))), [ev]⟩

/-! ### Derived observations used by the claims -/

/-- The four valid backend identifiers (the `DATABASE_NAMES` literal type). -/
def isSupportedName (name : String) : Bool :=
  name = "Milvus" || name = "Pinecone" || name = "MongoDB" || name = "QDrant"

/-- Client-construction setup events (one per backend). -/
def isConstructionEvent : Event → Bool
  | .milvusClientNew _ => true
  | .pineconeNew _ => true
  | .mongoClientNew _ => true
  | .qdrantClientNew _ => true
  | _ => false

/-- Backend write calls: `insert`, `upsert_records`, `insert_many`, `add`. -/
def isWriteEvent : Event → Bool
  | .milvusInsert _ _ => true
  | .pineconeUpsertRecords _ _ => true
  | .mongoInsertMany _ _ _ => true
  | .qdrantAdd _ _ _ _ => true
  | _ => false

/-- Number of records carried by a write call. -/
def writePayloadSize : Event → Nat
  | .milvusInsert _ data => data.length
  | .pineconeUpsertRecords _ records => records.length
  | .mongoInsertMany _ _ docs => docs.length
  | .qdrantAdd _ documents _ _ => documents.length
  | _ => 0

/-- The record identifiers the adapter itself assigns in a write call
(MongoDB assigns none: its object ids are backend-generated). -/
def eventAdapterIds : Event → List Nat
  | .milvusInsert _ data => data.map (fun r => r.id)
  | .pineconeUpsertRecords _ records => records.map (fun r => r.rid)
  | .qdrantAdd _ _ _ ids => ids
  | _ => []

/-- The backend honors the requested result limit: a successful query returns
at most `top_k` hits.  This is the contract of the external query
collaborators (`limit=top_k` in every branch). -/
def HonorsLimits (B : BackendBehavior) : Prop :=
  (∀ col vs k res, B.milvusSearch col vs k = .ok res → res.flatten.length ≤ k) ∧
  (∀ ns q k hits, B.pineconeSearchQ ns q k = .ok hits → hits.length ≤ k) ∧
  (∀ db coll stage docs, B.mongoAggregate db coll stage = .ok docs →
      docs.length ≤ stage.limit) ∧
  (∀ col q k res, B.qdrantQuery col q k = .ok res → res.length ≤ k)

/-! ### Concrete instances for witnesses -/

/-- Concrete settings for witness evaluations. -/
def S₀ : Settings :=
  ⟨⟨"milvus_docs"⟩, ⟨"pc-key", "pc-index"⟩, ⟨"mongodb://h", "db", "docs"⟩, ⟨"qdrant_docs"⟩⟩

/-- A concrete embedding collaborator. -/
def embZero : String → Vec := fun s => [(s.length : Int)]

/-- A backend on which every call succeeds and every query returns no hits. -/
def B₀ : BackendBehavior where
  milvusClientNew := fun _ => .ok ()
  milvusCreateCollection := fun _ _ => .ok ()
  pineconeNew := fun _ => .ok ()
  pineconeHasIndex := fun _ => .ok true
  pineconeCreateIndexForModel := fun _ => .ok ()
  mongoClientNew := fun _ => .ok ()
  qdrantClientNew := fun _ => .ok ()
  milvusInsert := fun _ _ => .ok ()
  pineconeUpsertRecords := fun _ _ => .ok ()
  mongoInsertMany := fun _ _ _ => .ok ()
  qdrantAdd := fun _ _ _ _ => .ok ()
  milvusSearch := fun _ _ _ => .ok []
  pineconeSearchQ := fun _ _ _ => .ok []
  mongoAggregate := fun _ _ _ => .ok []
  qdrantQuery := fun _ _ _ => .ok []

/-- A backend on which client construction for Milvus succeeds and every
other call raises. -/
def Bfail : BackendBehavior where
  milvusClientNew := fun _ => .ok ()
  milvusCreateCollection := fun _ _ => .error "boom"
  pineconeNew := fun _ => .error "boom"
  pineconeHasIndex := fun _ => .error "boom"
  pineconeCreateIndexForModel := fun _ => .error "boom"
  mongoClientNew := fun _ => .error "boom"
  qdrantClientNew := fun _ => .error "boom"
  milvusInsert := fun _ _ => .error "boom"
  pineconeUpsertRecords := fun _ _ => .error "boom"
  mongoInsertMany := fun _ _ _ => .error "boom"
  qdrantAdd := fun _ _ _ _ => .error "boom"
  milvusSearch := fun _ _ _ => .error "boom"
  pineconeSearchQ := fun _ _ _ => .error "boom"
  mongoAggregate := fun _ _ _ => .error "boom"
  qdrantQuery := fun _ _ _ => .error "boom"

/-- The empty session state: no cached connections, first handle id 0. -/
def σ₀ : SessionState := ⟨[], 0⟩

/-! ## Helper lemmas: equations of `get_connection` under each outcome -/

/-- A cache hit returns the cached handle with no side effects. -/
theorem gc_cached (S : Settings) (B : BackendBehavior) (name : String)
    (σ : SessionState) (c : Connection) (h : σ.connections.lookup name = some c) :
    get_connection S B name σ = ⟨.ok (some c), σ, []⟩ := by
  simp [get_connection, h]

theorem gc_milvus_errNew (S : Settings) (B : BackendBehavior) (σ : SessionState)
    (e : Err) (hl : σ.connections.lookup "Milvus" = none)
    (h1 : B.milvusClientNew "milvus.db" = .error e) :
    get_connection S B "Milvus" σ = ⟨.error e, σ, [.milvusClientNew "milvus.db"]⟩ := by
  simp [get_connection, hl, h1]

theorem gc_milvus_errCreate (S : Settings) (B : BackendBehavior) (σ : SessionState)
    (e : Err) (hl : σ.connections.lookup "Milvus" = none)
    (h1 : B.milvusClientNew "milvus.db" = .ok ())
    (h2 : B.milvusCreateCollection S.milvus_database_config.collection_name 384 = .error e) :
    get_connection S B "Milvus" σ =
      ⟨.error e, ⟨σ.connections, σ.nextHandleId + 1⟩,
       [.milvusClientNew "milvus.db",
        .milvusCreateCollection S.milvus_database_config.collection_name 384]⟩ := by
  simp [get_connection, hl, h1, h2]

theorem gc_milvus_ok (S : Settings) (B : BackendBehavior) (σ : SessionState)
    (hl : σ.connections.lookup "Milvus" = none)
    (h1 : B.milvusClientNew "milvus.db" = .ok ())
    (h2 : B.milvusCreateCollection S.milvus_database_config.collection_name 384 = .ok ()) :
    get_connection S B "Milvus" σ =
      ⟨.ok (some ⟨.milvusClient, σ.nextHandleId⟩),
       ⟨("Milvus", ⟨.milvusClient, σ.nextHandleId⟩) :: σ.connections, σ.nextHandleId + 1⟩,
       [.milvusClientNew "milvus.db",
        .milvusCreateCollection S.milvus_database_config.collection_name 384]⟩ := by
  simp [get_connection, hl, h1, h2]

theorem gc_pinecone_errNew (S : Settings) (B : BackendBehavior) (σ : SessionState)
    (e : Err) (hl : σ.connections.lookup "Pinecone" = none)
    (h1 : B.pineconeNew S.pinecone_database_config.api_key = .error e) :
    get_connection S B "Pinecone" σ =
      ⟨.error e, σ, [.pineconeNew S.pinecone_database_config.api_key]⟩ := by
  simp [get_connection, hl, h1]

theorem gc_pinecone_errHas (S : Settings) (B : BackendBehavior) (σ : SessionState)
    (e : Err) (hl : σ.connections.lookup "Pinecone" = none)
    (h1 : B.pineconeNew S.pinecone_database_config.api_key = .ok ())
    (h2 : B.pineconeHasIndex S.pinecone_database_config.index_name = .error e) :
    get_connection S B "Pinecone" σ =
      ⟨.error e, ⟨σ.connections, σ.nextHandleId + 1⟩,
       [.pineconeNew S.pinecone_database_config.api_key,
        .pineconeHasIndex S.pinecone_database_config.index_name]⟩ := by
  simp [get_connection, hl, h1, h2]

theorem gc_pinecone_ok_true (S : Settings) (B : BackendBehavior) (σ : SessionState)
    (hl : σ.connections.lookup "Pinecone" = none)
    (h1 : B.pineconeNew S.pinecone_database_config.api_key = .ok ())
    (h2 : B.pineconeHasIndex S.pinecone_database_config.index_name = .ok true) :
    get_connection S B "Pinecone" σ =
      ⟨.ok (some ⟨.pinecone, σ.nextHandleId⟩),
       ⟨("Pinecone", ⟨.pinecone, σ.nextHandleId⟩) :: σ.connections, σ.nextHandleId + 1⟩,
       [.pineconeNew S.pinecone_database_config.api_key,
        .pineconeHasIndex S.pinecone_database_config.index_name]⟩ := by
  simp [get_connection, hl, h1, h2]

theorem gc_pinecone_errCreate (S : Settings) (B : BackendBehavior) (σ : SessionState)
    (e : Err) (hl : σ.connections.lookup "Pinecone" = none)
    (h1 : B.pineconeNew S.pinecone_database_config.api_key = .ok ())
    (h2 : B.pineconeHasIndex S.pinecone_database_config.index_name = .ok false)
    (h3 : B.pineconeCreateIndexForModel S.pinecone_database_config.index_name = .error e) :
    get_connection S B "Pinecone" σ =
      ⟨.error e, ⟨σ.connections, σ.nextHandleId + 1⟩,
       [.pineconeNew S.pinecone_database_config.api_key,
        .pineconeHasIndex S.pinecone_database_config.index_name,
        .pineconeCreateIndexForModel S.pinecone_database_config.index_name]⟩ := by
  simp [get_connection, hl, h1, h2, h3]

theorem gc_pinecone_ok_false (S : Settings) (B : BackendBehavior) (σ : SessionState)
    (hl : σ.connections.lookup "Pinecone" = none)
    (h1 : B.pineconeNew S.pinecone_database_config.api_key = .ok ())
    (h2 : B.pineconeHasIndex S.pinecone_database_config.index_name = .ok false)
    (h3 : B.pineconeCreateIndexForModel S.pinecone_database_config.index_name = .ok ()) :
    get_connection S B "Pinecone" σ =
      ⟨.ok (some ⟨.pinecone, σ.nextHandleId⟩),
       ⟨("Pinecone", ⟨.pinecone, σ.nextHandleId⟩) :: σ.connections, σ.nextHandleId + 1⟩,
       [.pineconeNew S.pinecone_database_config.api_key,
        .pineconeHasIndex S.pinecone_database_config.index_name,
        .pineconeCreateIndexForModel S.pinecone_database_config.index_name]⟩ := by
  simp [get_connection, hl, h1, h2, h3]

theorem gc_mongo_err (S : Settings) (B : BackendBehavior) (σ : SessionState)
    (e : Err) (hl : σ.connections.lookup "MongoDB" = none)
    (h1 : B.mongoClientNew S.mongodb_database_config.uri = .error e) :
    get_connection S B "MongoDB" σ =
      ⟨.error e, σ, [.mongoClientNew S.mongodb_database_config.uri]⟩ := by
  simp [get_connection, hl, h1]

theorem gc_mongo_ok (S : Settings) (B : BackendBehavior) (σ : SessionState)
    (hl : σ.connections.lookup "MongoDB" = none)
    (h1 : B.mongoClientNew S.mongodb_database_config.uri = .ok ()) :
    get_connection S B "MongoDB" σ =
      ⟨.ok (some ⟨.mongoClient, σ.nextHandleId⟩),
       ⟨("MongoDB", ⟨.mongoClient, σ.nextHandleId⟩) :: σ.connections, σ.nextHandleId + 1⟩,
       [.mongoClientNew S.mongodb_database_config.uri]⟩ := by
  simp [get_connection, hl, h1]

theorem gc_qdrant_err (S : Settings) (B : BackendBehavior) (σ : SessionState)
    (e : Err) (hl : σ.connections.lookup "QDrant" = none)
    (h1 : B.qdrantClientNew ":memory:" = .error e) :
    get_connection S B "QDrant" σ =
      ⟨.error e, σ, [.qdrantClientNew ":memory:"]⟩ := by
  simp [get_connection, hl, h1]

theorem gc_qdrant_ok (S : Settings) (B : BackendBehavior) (σ : SessionState)
    (hl : σ.connections.lookup "QDrant" = none)
    (h1 : B.qdrantClientNew ":memory:" = .ok ()) :
    get_connection S B "QDrant" σ =
      ⟨.ok (some ⟨.qdrantClient, σ.nextHandleId⟩),
       ⟨("QDrant", ⟨.qdrantClient, σ.nextHandleId⟩) :: σ.connections, σ.nextHandleId + 1⟩,
       [.qdrantClientNew ":memory:"]⟩ := by
  simp [get_connection, hl, h1]

theorem gc_unsupported (S : Settings) (B : BackendBehavior) (name : String)
    (σ : SessionState) (hl : σ.connections.lookup name = none)
    (hn : isSupportedName name = false) :
    get_connection S B name σ = ⟨.ok none, σ, []⟩ := by
  simp only [isSupportedName, Bool.or_eq_false_iff, decide_eq_false_iff_not] at hn
  obtain ⟨⟨⟨n1, n2⟩, n3⟩, n4⟩ := hn
  simp [get_connection, hl, n1, n2, n3, n4]

/-- If `get_connection` returns handle `c` normally, then `c` is stored in
the session cache of the post-state under the requested name. -/
theorem gc_ok_lookup (S : Settings) (B : BackendBehavior) (name : String)
    (σ : SessionState) (c : Connection)
    (h : (get_connection S B name σ).result = .ok (some c)) :
    ((get_connection S B name σ).state).connections.lookup name = some c := by
  cases hl : σ.connections.lookup name with
  | some c' =>
    rw [gc_cached S B name σ c' hl] at h ⊢
    simp at h
    subst h
    simpa using hl
  | none =>
    by_cases hM : name = "Milvus"
    · subst hM
      cases h1 : B.milvusClientNew "milvus.db" with
      | error e => rw [gc_milvus_errNew S B σ e hl h1] at h; simp at h
      | ok u =>
        cases u
        cases h2 : B.milvusCreateCollection S.milvus_database_config.collection_name 384 with
        | error e => rw [gc_milvus_errCreate S B σ e hl h1 h2] at h; simp at h
        | ok u2 =>
          cases u2
          rw [gc_milvus_ok S B σ hl h1 h2] at h ⊢
          simp at h
          subst h
          simp [List.lookup]
    · by_cases hP : name = "Pinecone"
      · subst hP
        cases h1 : B.pineconeNew S.pinecone_database_config.api_key with
        | error e => rw [gc_pinecone_errNew S B σ e hl h1] at h; simp at h
        | ok u =>
          cases u
          cases h2 : B.pineconeHasIndex S.pinecone_database_config.index_name with
          | error e => rw [gc_pinecone_errHas S B σ e hl h1 h2] at h; simp at h
          | ok b =>
            cases b with
            | true =>
              rw [gc_pinecone_ok_true S B σ hl h1 h2] at h ⊢
              simp at h
              subst h
              simp [List.lookup]
            | false =>
              cases h3 : B.pineconeCreateIndexForModel S.pinecone_database_config.index_name with
              | error e => rw [gc_pinecone_errCreate S B σ e hl h1 h2 h3] at h; simp at h
              | ok u3 =>
                cases u3
                rw [gc_pinecone_ok_false S B σ hl h1 h2 h3] at h ⊢
                simp at h
                subst h
                simp [List.lookup]
      · by_cases hMo : name = "MongoDB"
        · subst hMo
          cases h1 : B.mongoClientNew S.mongodb_database_config.uri with
          | error e => rw [gc_mongo_err S B σ e hl h1] at h; simp at h
          | ok u =>
            cases u
            rw [gc_mongo_ok S B σ hl h1] at h ⊢
            simp at h
            subst h
            simp [List.lookup]
        · by_cases hQ : name = "QDrant"
          · subst hQ
            cases h1 : B.qdrantClientNew ":memory:" with
            | error e => rw [gc_qdrant_err S B σ e hl h1] at h; simp at h
            | ok u =>
              cases u
              rw [gc_qdrant_ok S B σ hl h1] at h ⊢
              simp at h
              subst h
              simp [List.lookup]
          · have hn : isSupportedName name = false := by
              simp [isSupportedName, hM, hP, hMo, hQ]
            rw [gc_unsupported S B name σ hl hn] at h
            simp at h

/-- Master case analysis for `get_connection` on a supported name that is not
yet cached: the call issues exactly one client construction, and either
raises (leaving the cache unchanged) or returns a freshly minted handle that
is prepended to the cache. -/
theorem gc_fresh_spec (S : Settings) (B : BackendBehavior) (name : String)
    (σ : SessionState) (hl : σ.connections.lookup name = none)
    (hs : isSupportedName name = true) :
    ((get_connection S B name σ).trace).countP (fun e => isConstructionEvent e) = 1 ∧
    ((∃ e, (get_connection S B name σ).result = .error e ∧
        ((get_connection S B name σ).state).connections = σ.connections) ∨
     (∃ c, (get_connection S B name σ).result = .ok (some c) ∧
        (get_connection S B name σ).state =
          ⟨(name, c) :: σ.connections, σ.nextHandleId + 1⟩)) := by
  simp only [isSupportedName, Bool.or_eq_true, decide_eq_true_eq] at hs
  rcases hs with ((hM | hP) | hMo) | hQ
  · subst hM
    cases h1 : B.milvusClientNew "milvus.db" with
    | error e =>
      rw [gc_milvus_errNew S B σ e hl h1]
      exact ⟨rfl, .inl ⟨e, rfl, rfl⟩⟩
    | ok u =>
      cases u
      cases h2 : B.milvusCreateCollection S.milvus_database_config.collection_name 384 with
      | error e =>
        rw [gc_milvus_errCreate S B σ e hl h1 h2]
        exact ⟨rfl, .inl ⟨e, rfl, rfl⟩⟩
      | ok u2 =>
        cases u2
        rw [gc_milvus_ok S B σ hl h1 h2]
        exact ⟨rfl, .inr ⟨_, rfl, rfl⟩⟩
  · subst hP
    cases h1 : B.pineconeNew S.pinecone_database_config.api_key with
    | error e =>
      rw [gc_pinecone_errNew S B σ e hl h1]
      exact ⟨rfl, .inl ⟨e, rfl, rfl⟩⟩
    | ok u =>
      cases u
      cases h2 : B.pineconeHasIndex S.pinecone_database_config.index_name with
      | error e =>
        rw [gc_pinecone_errHas S B σ e hl h1 h2]
        exact ⟨rfl, .inl ⟨e, rfl, rfl⟩⟩
      | ok b =>
        cases b with
        | true =>
          rw [gc_pinecone_ok_true S B σ hl h1 h2]
          exact ⟨rfl, .inr ⟨_, rfl, rfl⟩⟩
        | false =>
          cases h3 : B.pineconeCreateIndexForModel S.pinecone_database_config.index_name with
          | error e =>
            rw [gc_pinecone_errCreate S B σ e hl h1 h2 h3]
            exact ⟨rfl, .inl ⟨e, rfl, rfl⟩⟩
          | ok u3 =>
            cases u3
            rw [gc_pinecone_ok_false S B σ hl h1 h2 h3]
            exact ⟨rfl, .inr ⟨_, rfl, rfl⟩⟩
  · subst hMo
    cases h1 : B.mongoClientNew S.mongodb_database_config.uri with
    | error e =>
      rw [gc_mongo_err S B σ e hl h1]
      exact ⟨rfl, .inl ⟨e, rfl, rfl⟩⟩
    | ok u =>
      cases u
      rw [gc_mongo_ok S B σ hl h1]
      exact ⟨rfl, .inr ⟨_, rfl, rfl⟩⟩
  · subst hQ
    cases h1 : B.qdrantClientNew ":memory:" with
    | error e =>
      rw [gc_qdrant_err S B σ e hl h1]
      exact ⟨rfl, .inl ⟨e, rfl, rfl⟩⟩
    | ok u =>
      cases u
      rw [gc_qdrant_ok S B σ hl h1]
      exact ⟨rfl, .inr ⟨_, rfl, rfl⟩⟩

/-! ## Claim theorems -/

/-- C1: for every backend identifier, if `get_connection` returns a handle
`c`, a second call with the same identifier in the same session returns the
identity-equal handle `c`, performs no backend side effects (empty trace)
and does not modify the session state; moreover, for a previously uncached
identifier the first call performs the backend client construction exactly
once. -/
theorem C1_get_connection_idempotent (S : Settings) (B : BackendBehavior)
    (name : String) (σ : SessionState) (c : Connection)
    (h : (get_connection S B name σ).result = .ok (some c)) :
    get_connection S B name ((get_connection S B name σ).state) =
      ⟨.ok (some c), (get_connection S B name σ).state, []⟩ ∧
    (σ.connections.lookup name = none →
      ((get_connection S B name σ).trace).countP (fun e => isConstructionEvent e) = 1) := by
  refine ⟨gc_cached S B name _ c (gc_ok_lookup S B name σ c h), fun hl => ?_⟩
  cases hq : isSupportedName name with
  | false =>
    rw [gc_unsupported S B name σ hl hq] at h
    simp at h
  | true => exact (gc_fresh_spec S B name σ hl hq).1

/-- Witness for C1 at the Milvus backend on a fresh session. -/
theorem C1_get_connection_idempotent_witness :
    get_connection S₀ B₀ "Milvus" ((get_connection S₀ B₀ "Milvus" σ₀).state) =
      ⟨.ok (some ⟨.milvusClient, 0⟩), (get_connection S₀ B₀ "Milvus" σ₀).state, []⟩ ∧
    (σ₀.connections.lookup "Milvus" = none →
      ((get_connection S₀ B₀ "Milvus" σ₀).trace).countP
        (fun e => isConstructionEvent e) = 1) :=
  C1_get_connection_idempotent S₀ B₀ "Milvus" σ₀ ⟨.milvusClient, 0⟩ rfl

/-- C9: under the precondition that the identifier is one of the four
enumerated names, every normal return of `get_connection` carries a non-None
handle that is stored in the session cache before returning; for an
identifier outside that set (and absent from the cache, as in every
reachable session state) the fall-through branch returns None, leaves the
state unchanged and issues no backend call. -/
theorem C9_dispatch_totality (S : Settings) (B : BackendBehavior)
    (name : String) (σ : SessionState) :
    (isSupportedName name = true →
      ∀ v, (get_connection S B name σ).result = .ok v →
        ∃ c, v = some c ∧
          ((get_connection S B name σ).state).connections.lookup name = some c) ∧
    (isSupportedName name = false → σ.connections.lookup name = none →
      get_connection S B name σ = ⟨.ok none, σ, []⟩) := by
  constructor
  · intro hs v hv
    cases v with
    | some c => exact ⟨c, rfl, gc_ok_lookup S B name σ c hv⟩
    | none =>
      exfalso
      cases hl : σ.connections.lookup name with
      | some c' =>
        rw [gc_cached S B name σ c' hl] at hv
        simp at hv
      | none =>
        rcases (gc_fresh_spec S B name σ hl hs).2 with ⟨e, he, -⟩ | ⟨c, hc, -⟩
        · rw [hv] at he
          simp at he
        · rw [hv] at hc
          simp at hc
  · intro hn hl
    exact gc_unsupported S B name σ hl hn

/-- Witness for C9: a supported name ("Milvus") returns and caches a handle;
an unsupported name ("Redis") falls through to None with no effects. -/
theorem C9_dispatch_totality_witness :
    (∃ c, (some (⟨.milvusClient, 0⟩ : Connection) : Option Connection) = some c ∧
      ((get_connection S₀ B₀ "Milvus" σ₀).state).connections.lookup "Milvus" = some c) ∧
    get_connection S₀ B₀ "Redis" σ₀ = ⟨.ok none, σ₀, []⟩ :=
  ⟨(C9_dispatch_totality S₀ B₀ "Milvus" σ₀).1 rfl (some ⟨.milvusClient, 0⟩) rfl,
   (C9_dispatch_totality S₀ B₀ "Redis" σ₀).2 rfl rfl⟩

/-- C10: the MongoDB branch of `get_connection` performs no collection or
search-index setup: its only backend call is the client construction, and
the client is cached; `search_documents` on a MongoDB connection issues one
aggregation whose `$vectorSearch` stage names the index "default", which no
adapter call ever creates. -/
theorem C10_mongo_no_index_setup (S : Settings) (emb : String → Vec)
    (B : BackendBehavior) (σ : SessionState) (q : String) (k hid : Nat)
    (hl : σ.connections.lookup "MongoDB" = none)
    (hok : B.mongoClientNew S.mongodb_database_config.uri = .ok ()) :
    (get_connection S B "MongoDB" σ).trace =
      [.mongoClientNew S.mongodb_database_config.uri] ∧
    ((get_connection S B "MongoDB" σ).state).connections.lookup "MongoDB" =
      some ⟨.mongoClient, σ.nextHandleId⟩ ∧
    (search_documents S emb B ⟨.mongoClient, hid⟩ q k).trace =
      [.mongoAggregate S.mongodb_database_config.db_name
        S.mongodb_database_config.collection_name
        ⟨"default", "embedding", emb q, 100, k⟩] := by
  rw [gc_mongo_ok S B σ hl hok]
  refine ⟨rfl, by simp [List.lookup], ?_⟩
  simp only [search_documents]
  split
  · simp_all
  · simp_all

/-- Witness for C10 on a fresh session against the all-succeeding backend. -/
theorem C10_mongo_no_index_setup_witness :
    (get_connection S₀ B₀ "MongoDB" σ₀).trace =
      [.mongoClientNew S₀.mongodb_database_config.uri] ∧
    ((get_connection S₀ B₀ "MongoDB" σ₀).state).connections.lookup "MongoDB" =
      some ⟨.mongoClient, σ₀.nextHandleId⟩ ∧
    (search_documents S₀ embZero B₀ ⟨.mongoClient, 0⟩ "q" 3).trace =
      [.mongoAggregate S₀.mongodb_database_config.db_name
        S₀.mongodb_database_config.collection_name
        ⟨"default", "embedding", embZero "q", 100, 3⟩] :=
  C10_mongo_no_index_setup S₀ embZero B₀ σ₀ "q" 3 0 rfl rfl

/-- C2 counterexample: `index_documents` with the empty document batch on a
Milvus connection does issue a backend write call (`insert` with an empty
data list), refuting the claim that no backend write call occurs. -/
theorem C2_empty_batch_counterexample :
    (((index_documents S₀ embZero B₀ 0 ⟨.milvusClient, 0⟩ []).trace).countP
      (fun e => isWriteEvent e)) ≠ 0 := by
  decide

/-- C2 amended: `index_documents` with an empty document sequence still
issues exactly one backend write call, whose record payload is empty; the
adapter raises nothing itself (its outcome is exactly the backend call's
outcome). -/
theorem C2_empty_batch_amended (S : Settings) (emb : String → Vec)
    (B : BackendBehavior) (n : Nat) (connection : Connection) :
    ∃ ev, (index_documents S emb B n connection []).trace = [ev] ∧
      isWriteEvent ev = true ∧ writePayloadSize ev = 0 := by
  obtain ⟨kind, hid⟩ := connection
  cases kind with
  | milvusClient =>
    exact ⟨.milvusInsert S.milvus_database_config.collection_name [], rfl, rfl, rfl⟩
  | pinecone =>
    exact ⟨.pineconeUpsertRecords "namespace" [], rfl, rfl, rfl⟩
  | mongoClient =>
    exact ⟨.mongoInsertMany S.mongodb_database_config.db_name
      S.mongodb_database_config.collection_name [], rfl, rfl, rfl⟩
  | qdrantClient =>
    exact ⟨.qdrantAdd S.qdrant_database_config.collection_name [] [] [], rfl, rfl, rfl⟩

/-- Helper for C3: the MongoDB `zip` of mapped embeddings with the documents
collapses to a single pointwise map. -/
theorem mongo_zip_pairing (emb : String → Vec) (documents : List (String × String)) :
    (((documents.map (fun doc => doc.2)).map emb).zip documents).map
        (fun p => (⟨p.2.2, p.2.1, p.1⟩ : MongoRecord)) =
      documents.map (fun doc => ⟨doc.2, doc.1, emb doc.2⟩) := by
  induction documents with
  | nil => rfl
  | cons d t ih => simpa using ih

/-- C3: for the backends requiring externally computed embeddings (Milvus
and MongoDB), `index_documents` performs a single batch write whose record at
position i pairs the embedding of document i's text with document i's title
and text, for every i in input order. -/
theorem C3_embedding_order_pairing (S : Settings) (emb : String → Vec)
    (B : BackendBehavior) (n hidM hidMo : Nat) (documents : List (String × String)) :
    (index_documents S emb B n ⟨.milvusClient, hidM⟩ documents).trace =
      [.milvusInsert S.milvus_database_config.collection_name
        (documents.enum.map (fun p => ⟨p.1, emb p.2.2, p.2.2, p.2.1⟩))] ∧
    (index_documents S emb B n ⟨.mongoClient, hidMo⟩ documents).trace =
      [.mongoInsertMany S.mongodb_database_config.db_name
        S.mongodb_database_config.collection_name
        (documents.map (fun doc => ⟨doc.2, doc.1, emb doc.2⟩))] := by
  constructor
  · simp only [index_documents]
    refine congrArg (fun d =>
      [Event.milvusInsert S.milvus_database_config.collection_name d]) ?_
    apply List.ext_getElem
    · simp
    · intro i h1 h2
      have hd : i < documents.length := by simpa using h2
      have hv : i < ((documents.map (fun doc => doc.2)).map emb).length := by
        simpa using hd
      simp only [List.getElem_map, List.getElem_range, List.getElem_enum]
      rw [List.getD_eq_getElem _ _ hv, List.getD_eq_getElem _ _ hd]
      simp
  · simp only [index_documents]
    rw [mongo_zip_pairing]

/-- C4 counterexample: two successive `index_documents` calls on the same
Milvus connection (the second starting from the fresh-id counter the first
returned) both assign identifier 0 to their single record, so identifiers
collide across calls. -/
theorem C4_identifier_collision_counterexample :
    (((index_documents S₀ embZero B₀ 0 ⟨.milvusClient, 0⟩ [("t", "x")]).trace).map
        eventAdapterIds).flatten = [0] ∧
    (((index_documents S₀ embZero B₀
        (index_documents S₀ embZero B₀ 0 ⟨.milvusClient, 0⟩ [("t", "x")]).nextFreshId
        ⟨.milvusClient, 0⟩ [("t", "x")]).trace).map eventAdapterIds).flatten = [0] :=
  ⟨rfl, rfl⟩

/-- Helper for C4: mapping an identifier extractor that recovers the index
over a `range`-built record list yields a duplicate-free list. -/
theorem nodup_map_range_extract {β : Type} (m : Nat) (F : Nat → β) (g : β → Nat)
    (hg : ∀ i, g (F i) = i) : (((List.range m).map F).map g).Nodup := by
  rw [List.map_map]
  have h : (g ∘ F) = fun i => i := funext hg
  rw [h, List.map_id']
  exact List.nodup_range m

/-- C4 amended: every record written by `index_documents` is assigned an
identifier at write time (sequential index for Milvus, fresh generated id for
Pinecone and QDrant, backend-generated object id for MongoDB) and the
identifiers the adapter assigns within one call are pairwise distinct; the
Milvus sequential identifiers restart at 0 on every call, so identifiers
across successive index calls on the same backend may collide. -/
theorem C4_within_call_unique_ids (S : Settings) (emb : String → Vec)
    (B : BackendBehavior) (n : Nat) (connection : Connection)
    (documents : List (String × String)) :
    ((((index_documents S emb B n connection documents).trace).map
        eventAdapterIds).flatten).Nodup := by
  have hadd : Function.Injective (fun i => n + i) := fun a b hab =>
    Nat.add_left_cancel hab
  have henum : ∀ l : List (String × String),
      (l.enum.map (fun p => n + p.1)).Nodup := by
    intro l
    have h2 : l.enum.map (fun p => n + p.1) =
        (List.range l.length).map (fun i => n + i) := by
      conv_rhs => rw [← List.enum_map_fst l]
      rw [List.map_map]
      rfl
    rw [h2]
    exact (List.nodup_range l.length).map hadd
  obtain ⟨kind, hid⟩ := connection
  cases kind with
  | milvusClient =>
    simp only [index_documents, eventAdapterIds, List.map_cons, List.map_nil,
      List.flatten, List.append_nil]
    exact nodup_map_range_extract _ _ _ (fun i => rfl)
  | pinecone =>
    simp only [index_documents, eventAdapterIds, List.map_cons, List.map_nil,
      List.flatten, List.append_nil, List.map_map]
    simpa using henum documents
  | mongoClient =>
    simp [index_documents, eventAdapterIds]
  | qdrantClient =>
    simp only [index_documents, eventAdapterIds, List.map_cons, List.map_nil,
      List.flatten, List.append_nil]
    exact (List.nodup_range documents.length).map hadd

/-- C5: for every backend response, `search_documents` returns exactly one
`(title, text, score)` tuple per backend hit, in the backend's order: the
result is the hit sequence (flattened, for Milvus' per-query-vector nesting)
mapped pointwise, with no re-ranking, filtering, truncation or padding. -/
theorem C5_result_normalization (S : Settings) (emb : String → Vec)
    (B : BackendBehavior) (q : String) (k hM hP hMo hQ : Nat) :
    (∀ res, B.milvusSearch S.milvus_database_config.collection_name [emb q] k = .ok res →
      (search_documents S emb B ⟨.milvusClient, hM⟩ q k).result =
        .ok (res.flatten.map (fun hit => (hit.title, hit.text, hit.distance)))) ∧
    (∀ hits, B.pineconeSearchQ "namespace" q k = .ok hits →
      (search_documents S emb B ⟨.pinecone, hP⟩ q k).result =
        .ok (hits.map (fun hit => (hit.title, hit.text, hit.score)))) ∧
    (∀ docs, B.mongoAggregate S.mongodb_database_config.db_name
        S.mongodb_database_config.collection_name
        ⟨"default", "embedding", emb q, 100, k⟩ = .ok docs →
      (search_documents S emb B ⟨.mongoClient, hMo⟩ q k).result =
        .ok (docs.map (fun doc => (doc.title, doc.text, doc.score)))) ∧
    (∀ res, B.qdrantQuery S.qdrant_database_config.collection_name q k = .ok res →
      (search_documents S emb B ⟨.qdrantClient, hQ⟩ q k).result =
        .ok (res.map (fun hit => (hit.title, hit.document, hit.score)))) := by
  refine ⟨fun res hres => ?_, fun hits hh => ?_, fun docs hd => ?_, fun res hres => ?_⟩
  · simp only [search_documents, List.map_cons, List.map_nil, List.getD_cons_zero]
    rw [hres]
    simp [List.map_flatten]
  · simp only [search_documents]
    rw [hh]
  · simp only [search_documents, List.map_cons, List.map_nil, List.getD_cons_zero]
    rw [hd]
  · simp only [search_documents]
    rw [hres]

/-- Witness for C5 against the all-succeeding backend with empty responses. -/
theorem C5_result_normalization_witness :
    (search_documents S₀ embZero B₀ ⟨.milvusClient, 0⟩ "q" 3).result =
      .ok ([] : List (String × String × Score)) ∧
    (search_documents S₀ embZero B₀ ⟨.pinecone, 0⟩ "q" 3).result =
      .ok ([] : List (String × String × Score)) ∧
    (search_documents S₀ embZero B₀ ⟨.mongoClient, 0⟩ "q" 3).result =
      .ok ([] : List (String × String × Score)) ∧
    (search_documents S₀ embZero B₀ ⟨.qdrantClient, 0⟩ "q" 3).result =
      .ok ([] : List (String × String × Score)) :=
  ⟨(C5_result_normalization S₀ embZero B₀ "q" 3 0 0 0 0).1 [] rfl,
   (C5_result_normalization S₀ embZero B₀ "q" 3 0 0 0 0).2.1 [] rfl,
   (C5_result_normalization S₀ embZero B₀ "q" 3 0 0 0 0).2.2.1 [] rfl,
   (C5_result_normalization S₀ embZero B₀ "q" 3 0 0 0 0).2.2.2 [] rfl⟩

/-- C6: backend-setup errors inside `get_connection`, write errors inside
`index_documents` and query errors inside `search_documents` propagate to
the caller verbatim and uncaught; there is no retry (each failing call is
attempted exactly once), no rollback, and no error swallowing, and a setup
error leaves the connection cache unchanged (write and query calls touch no
adapter state at all). -/
theorem C6_error_propagation (S : Settings) (emb : String → Vec)
    (B : BackendBehavior) (e : Err) (σ : SessionState) (n k : Nat)
    (q : String) (documents : List (String × String))
    (hlM : σ.connections.lookup "Milvus" = none)
    (hlP : σ.connections.lookup "Pinecone" = none)
    (hlMo : σ.connections.lookup "MongoDB" = none)
    (hlQ : σ.connections.lookup "QDrant" = none)
    (hset1 : B.milvusClientNew "milvus.db" = .ok ())
    (hset2 : B.milvusCreateCollection S.milvus_database_config.collection_name 384 = .error e)
    (hset3 : B.pineconeNew S.pinecone_database_config.api_key = .error e)
    (hset4 : B.mongoClientNew S.mongodb_database_config.uri = .error e)
    (hset5 : B.qdrantClientNew ":memory:" = .error e)
    (hw1 : ∀ col data, B.milvusInsert col data = .error e)
    (hw2 : ∀ ns recs, B.pineconeUpsertRecords ns recs = .error e)
    (hw3 : ∀ db coll docs, B.mongoInsertMany db coll docs = .error e)
    (hw4 : ∀ col docs md ids, B.qdrantAdd col docs md ids = .error e)
    (hq1 : ∀ col vs k2, B.milvusSearch col vs k2 = .error e)
    (hq2 : ∀ ns t k2, B.pineconeSearchQ ns t k2 = .error e)
    (hq3 : ∀ db coll stage, B.mongoAggregate db coll stage = .error e)
    (hq4 : ∀ col t k2, B.qdrantQuery col t k2 = .error e) :
    ((get_connection S B "Milvus" σ).result = .error e ∧
      ((get_connection S B "Milvus" σ).state).connections = σ.connections) ∧
    ((get_connection S B "Pinecone" σ).result = .error e ∧
      ((get_connection S B "Pinecone" σ).state).connections = σ.connections) ∧
    ((get_connection S B "MongoDB" σ).result = .error e ∧
      ((get_connection S B "MongoDB" σ).state).connections = σ.connections) ∧
    ((get_connection S B "QDrant" σ).result = .error e ∧
      ((get_connection S B "QDrant" σ).state).connections = σ.connections) ∧
    (∀ kind hid, (index_documents S emb B n ⟨kind, hid⟩ documents).result = .error e ∧
      ((index_documents S emb B n ⟨kind, hid⟩ documents).trace).countP
        (fun ev => isWriteEvent ev) = 1) ∧
    (∀ kind hid, (search_documents S emb B ⟨kind, hid⟩ q k).result = .error e ∧
      ((search_documents S emb B ⟨kind, hid⟩ q k).trace).length = 1) := by
  refine ⟨?_, ?_, ?_, ?_, ?_, ?_⟩
  · rw [gc_milvus_errCreate S B σ e hlM hset1 hset2]
    exact ⟨rfl, rfl⟩
  · rw [gc_pinecone_errNew S B σ e hlP hset3]
    exact ⟨rfl, rfl⟩
  · rw [gc_mongo_err S B σ e hlMo hset4]
    exact ⟨rfl, rfl⟩
  · rw [gc_qdrant_err S B σ e hlQ hset5]
    exact ⟨rfl, rfl⟩
  · intro kind hid
    cases kind with
    | milvusClient => exact ⟨hw1 _ _, rfl⟩
    | pinecone => exact ⟨hw2 _ _, rfl⟩
    | mongoClient => exact ⟨hw3 _ _ _, rfl⟩
    | qdrantClient => exact ⟨hw4 _ _ _ _, rfl⟩
  · intro kind hid
    cases kind with
    | milvusClient =>
      simp only [search_documents]
      rw [hq1]
      exact ⟨rfl, rfl⟩
    | pinecone =>
      simp only [search_documents]
      rw [hq2]
      exact ⟨rfl, rfl⟩
    | mongoClient =>
      simp only [search_documents]
      rw [hq3]
      exact ⟨rfl, rfl⟩
    | qdrantClient =>
      simp only [search_documents]
      rw [hq4]
      exact ⟨rfl, rfl⟩

/-- Witness for C6 against the backend on which every call after the Milvus
client construction raises "boom". -/
theorem C6_error_propagation_witness :
    (get_connection S₀ Bfail "Milvus" σ₀).result = .error "boom" ∧
    ((get_connection S₀ Bfail "Milvus" σ₀).state).connections = σ₀.connections :=
  (C6_error_propagation S₀ embZero Bfail "boom" σ₀ 0 3 "q" [("t", "x")]
    rfl rfl rfl rfl rfl rfl rfl rfl rfl
    (fun _ _ => rfl) (fun _ _ => rfl) (fun _ _ _ => rfl) (fun _ _ _ _ => rfl)
    (fun _ _ _ => rfl) (fun _ _ _ => rfl) (fun _ _ _ => rfl) (fun _ _ _ => rfl)).1

/-- Helper for C7: the all-succeeding empty backend honors every limit. -/
theorem honorsLimits_B0 : HonorsLimits B₀ := by
  refine ⟨?_, ?_, ?_, ?_⟩
  · intro col vs k res h
    have hres : ([] : List (List MilvusHit)) = res := by simpa [B₀] using h
    simp [← hres]
  · intro ns q k hits h
    have hres : ([] : List PineconeHit) = hits := by simpa [B₀] using h
    simp [← hres]
  · intro db coll stage docs h
    have hres : ([] : List MongoResultDoc) = docs := by simpa [B₀] using h
    simp [← hres]
  · intro col q k res h
    have hres : ([] : List QdrantHit) = res := by simpa [B₀] using h
    simp [← hres]

/-- C7: on a backend that honors the requested result limit, a successful
`search_documents` call with `top_k = 0` returns the empty sequence, for
every backend connection and query string. -/
theorem C7_topk_zero_empty (S : Settings) (emb : String → Vec)
    (B : BackendBehavior) (hB : HonorsLimits B) (connection : Connection)
    (q : String) (l : List (String × String × Score))
    (h : (search_documents S emb B connection q 0).result = .ok l) :
    l = [] := by
  obtain ⟨hBm, hBp, hBmo, hBq⟩ := hB
  obtain ⟨kind, hid⟩ := connection
  apply List.length_eq_zero.mp
  cases kind with
  | milvusClient =>
    simp only [search_documents] at h
    cases hres : B.milvusSearch S.milvus_database_config.collection_name
        ([q].map emb) 0 with
    | error e =>
      rw [hres] at h
      simp at h
    | ok res =>
      rw [hres] at h
      simp only [Except.ok.injEq] at h
      have hlen := hBm _ _ _ _ hres
      rw [← h, ← List.map_flatten, List.length_map]
      exact Nat.le_zero.mp hlen
  | pinecone =>
    simp only [search_documents] at h
    cases hres : B.pineconeSearchQ "namespace" q 0 with
    | error e =>
      rw [hres] at h
      simp at h
    | ok hits =>
      rw [hres] at h
      simp only [Except.ok.injEq] at h
      have hlen := hBp _ _ _ _ hres
      rw [← h]
      simpa using Nat.le_zero.mp hlen
  | mongoClient =>
    simp only [search_documents] at h
    cases hres : B.mongoAggregate S.mongodb_database_config.db_name
        S.mongodb_database_config.collection_name
        ⟨"default", "embedding", ([q].map emb).getD 0 [], 100, 0⟩ with
    | error e =>
      rw [hres] at h
      simp at h
    | ok docs =>
      rw [hres] at h
      simp only [Except.ok.injEq] at h
      have hlen := hBmo _ _ _ _ hres
      rw [← h]
      simpa using Nat.le_zero.mp hlen
  | qdrantClient =>
    simp only [search_documents] at h
    cases hres : B.qdrantQuery S.qdrant_database_config.collection_name q 0 with
    | error e =>
      rw [hres] at h
      simp at h
    | ok res =>
      rw [hres] at h
      simp only [Except.ok.injEq] at h
      have hlen := hBq _ _ _ _ hres
      rw [← h]
      simpa using Nat.le_zero.mp hlen

/-- Witness for C7 against the all-succeeding empty backend. -/
theorem C7_topk_zero_empty_witness : ([] : List (String × String × Score)) = [] :=
  C7_topk_zero_empty S₀ embZero B₀ honorsLimits_B0 ⟨.qdrantClient, 0⟩ "q" [] rfl

end VectorShowcase
